import Mathlib

/-!
Shallow embedding of the browser-driven reconciliation pipeline of
`src/services/browser-service.js` (class `BrowserService`), together with the
slices of `login`, `close` and `resetStats` the specification talks about.
JavaScript strings are modelled as Lean `String`, JavaScript numbers as `ℚ`
(the values the pipeline compares are decimal currency amounts at cent
precision, where IEEE-754 equality of two amounts parsed from decimal text
agrees with equality of the denoted rationals), absent object fields as
`Option`, and exceptions as `Option`/`Except`-shaped results.  The page, the
portal and the DOM are an environment parameter: each attempt of
`searchExpediente` either throws somewhere before the result extraction or
completes with an extracted first table row (possibly absent) and the
success/failure of the two acceptance clicks.
-/

/-- Characters removed by JavaScript `String.prototype.trim`
(whitespace; the inputs here only ever carry these). -/
def isJsSpace (c : Char) : Bool :=
  c = ' ' || c = '\t' || c = '\n' || c = '\r' || c = '\x0c' || c = '\x0b'

/-- `trim` on a character list: drop whitespace from both ends. -/
def trimList (cs : List Char) : List Char :=
  ((cs.dropWhile isJsSpace).reverse.dropWhile isJsSpace).reverse

/-- Model of JavaScript `s.trim()`. -/
def jsTrim (s : String) : String := ⟨trimList s.data⟩

/-- JavaScript `s.replace(pat, '')` with a *string* pattern removes only the
FIRST occurrence of the pattern.  The source only ever uses the single
character patterns `'$'` and `','`, modelled here as removing the first
occurrence of that character. -/
def removeFirst (c : Char) : List Char → List Char
  | [] => []
  | x :: xs => if x = c then xs else x :: removeFirst c xs

/-- `cells[2].textContent.trim().replace('$', '').replace(',', '')` from
`searchExpediente`: trim, then drop the first `'$'`, then the first `','`. -/
def normalizeCost (s : String) : String :=
  ⟨removeFirst ',' (removeFirst '$' (trimList s.data))⟩

/-- Numeric value of a list of decimal digit characters. -/
def digitsVal (cs : List Char) : Nat :=
  cs.foldl (fun a c => a * 10 + (c.toNat - '0'.toNat)) 0

/-- Model of JavaScript `parseFloat` on the decimal fragment this code meets:
optional leading whitespace and sign, then digits with an optional fractional
part; parsing stops at the first character that cannot extend the number, and
`none` models `NaN` (no digits at all).  The value `±(i.f)` is built as
`mkRat (± (i * 10^|f| + f)) (10^|f|)`.  (Exponents, hex and `Infinity`, which
`parseFloat` also accepts, never occur in this code's inputs and are not
modelled.) -/
def jsParseFloat (s : String) : Option ℚ :=
  let cs := s.data.dropWhile isJsSpace
  let neg := cs.head? = some '-'
  let cs := if cs.head? = some '-' || cs.head? = some '+' then cs.tail else cs
  let intPart := cs.takeWhile Char.isDigit
  let rest := cs.dropWhile Char.isDigit
  let fracPart :=
    match rest with
    | '.' :: r => r.takeWhile Char.isDigit
    | _ => []
  if intPart.isEmpty && fracPart.isEmpty then none
  else
    let mantissa : Int := digitsVal intPart * 10 ^ fracPart.length + digitsVal fracPart
    some (mkRat (if neg then -mantissa else mantissa) (10 ^ fracPart.length))

/-- Model of
`new Intl.NumberFormat('es-MX', { style: 'currency', currency: 'MXN' }).format`:
round to cents (half away from zero), group the integer part by thousands,
prefix `"$"`.  `none` (`NaN`) renders as `"$NaN"`.  No theorem below depends
on this rendering; it only fills the `costo` field the way the source does. -/
def group3Rev : List Char → List Char
  | a :: b :: c :: d :: rest => a :: b :: c :: ',' :: group3Rev (d :: rest)
  | l => l

def formatMXN : Option ℚ → String
  | none => "$NaN"
  | some q =>
    let cents : Nat := (q.num.natAbs * 200 + q.den) / (2 * q.den)
    let ip := cents / 100
    let fp := cents % 100
    let ipStr : String := ⟨(group3Rev (Nat.repr ip).data.reverse).reverse⟩
    let fpStr : String := if fp < 10 then "0" ++ Nat.repr fp else Nat.repr fp
    (if q.num < 0 && cents ≠ 0 then "-$" else "$") ++ ipStr ++ "." ++ fpStr

/-- Processing statistics (`this.stats` of `BrowserService`). -/
structure Stats where
  totalRevisados : Nat
  totalConCosto : Nat
  totalAceptados : Nat
deriving DecidableEq, Repr

/-- `BrowserService` constructor / `resetStats()`: all three counters at 0. -/
def resetStats : Stats := ⟨0, 0, 0⟩

/-- The retry budget `this.maxRetries` (constructor default). -/
def maxRetries : Nat := 3

/-- The first result row as seen by the in-page evaluation of
`searchExpediente`: the `textContent` of `cells[2]` … `cells[7]` of
`document.querySelector('table tbody tr')`; `none` models an absent cell. -/
structure Row where
  cell2 : Option String
  cell3 : Option String
  cell4 : Option String
  cell5 : Option String
  cell6 : Option String
  cell7 : Option String
deriving DecidableEq, Repr

/-- `cells[k]?.textContent?.trim() || ''`. -/
def optCellText : Option String → String
  | some t => jsTrim t
  | none => ""

/-- `cells[2] && cells[2].textContent && trim !== '' && trim !== '$0.00' &&
trim !== '$0'` — whether the cost cell carries real content. -/
def tieneContenido (r : Row) : Bool :=
  match r.cell2 with
  | none => false
  | some t => !(jsTrim t = "" || jsTrim t = "$0.00" || jsTrim t = "$0")

/-- The object built by the `page.evaluate` callback of `searchExpediente`.
Fields that the callback leaves absent (`undefined`) are `none`. -/
structure SearchResult where
  costo : Option String := none
  estatus : Option String := none
  notas : Option String := none
  fechaRegistro : Option String := none
  servicio : Option String := none
  subservicio : Option String := none
  validacion : Option String := none
  hayDatos : Bool
  costosCoinciden : Bool
deriving DecidableEq, Repr

/-- The `page.evaluate((guardado) => {...})` callback of `searchExpediente`:
classify the row, normalize `cells[2]`, parse and compare with
`parseFloat(costoSistema) === parseFloat(guardado)` (for a JavaScript number
`guardado`, `parseFloat(guardado)` is `guardado` itself; `NaN === x` is
false, modelled by the `none` branch). -/
def evalSearchResult (row : Option Row) (guardado : ℚ) : SearchResult :=
  match row with
  | none => { hayDatos := false, costosCoinciden := false }
  | some r =>
    if tieneContenido r then
      let costoSistema := normalizeCost (r.cell2.getD "0")
      let parsed := jsParseFloat costoSistema
      let coinciden :=
        match parsed with
        | some v => decide (v = guardado)
        | none => false
      { costo := some (formatMXN parsed)
        estatus := some (optCellText r.cell3)
        notas := some (optCellText r.cell4)
        fechaRegistro := some (optCellText r.cell5)
        servicio := some (optCellText r.cell6)
        subservicio := some (optCellText r.cell7)
        validacion := some (if coinciden then "Aceptado" else "No aceptado")
        hayDatos := true
        costosCoinciden := coinciden }
    else { hayDatos := false, costosCoinciden := false }

/-- `aceptarExpediente(expedienteData)`: click the row's accept button
(`step1Clicked` is the `buttonClicked` evaluation), then the modal's
confirmation button (`step2Confirmed` is the `confirmed` evaluation).  A
failure at either step is caught by the inner `catch`, which sets
`expedienteData.validacion = 'Error en aceptación'` and returns `false`; the
method itself never throws. -/
def aceptarExpediente (d : SearchResult) (step1Clicked step2Confirmed : Bool) :
    Bool × SearchResult :=
  if step1Clicked then
    if step2Confirmed then (true, d)
    else (false, { d with validacion := some "Error en aceptación" })
  else (false, { d with validacion := some "Error en aceptación" })

/-- Environment of one attempt of `searchExpediente`: either some step before
the result extraction throws (navigation, missing search field, …), or the
attempt reaches the extraction and sees `row` as the first table row
(`none` = no row), with the two acceptance clicks behaving as given. -/
inductive AttemptEnv where
  | throws
  | result (row : Option Row) (step1Clicked step2Confirmed : Bool)

/-- The outcome object returned by `searchExpediente`
(`{...searchResult, stats}` after `delete searchResult.hayDatos`; note
`costosCoinciden` is NOT deleted, and the catch-all error object carries
neither `costosCoinciden` nor any absent field, having explicit `''`
fields instead). -/
structure SearchOutcome where
  costo : Option String
  estatus : Option String
  notas : Option String
  fechaRegistro : Option String
  servicio : Option String
  subservicio : Option String
  validacion : Option String
  costosCoinciden : Option Bool
  stats : Stats
deriving DecidableEq, Repr

/-- `{...searchResult, stats: this.stats}` with `hayDatos` deleted. -/
def mkOutcome (sr : SearchResult) (st : Stats) : SearchOutcome :=
  { costo := sr.costo
    estatus := sr.estatus
    notas := sr.notas
    fechaRegistro := sr.fechaRegistro
    servicio := sr.servicio
    subservicio := sr.subservicio
    validacion := sr.validacion
    costosCoinciden := some sr.costosCoinciden
    stats := st }

/-- The object returned when the retry budget is exhausted. -/
def errorOutcome (st : Stats) : SearchOutcome :=
  { costo := some ""
    estatus := some ""
    notas := some ""
    fechaRegistro := some ""
    servicio := some ""
    subservicio := some ""
    validacion := some "Error en consulta"
    costosCoinciden := none
    stats := st }

/-- One attempt (the body of one `searchExpediente` invocation up to the
`catch`): `this.stats.totalRevisados++` happens first; a throwing attempt
(`none` outcome) has still incremented it.  On completion the stats are
updated exactly as in the source (`totalConCosto++` when `hayDatos`, then
`totalAceptados++` and a call to `aceptarExpediente` when `costosCoinciden`).
The final `Bool` records whether `aceptarExpediente` was invoked. -/
def searchAttempt (e : AttemptEnv) (guardado : ℚ) (st : Stats) :
    Option SearchOutcome × Stats × Bool :=
  let st1 := { st with totalRevisados := st.totalRevisados + 1 }
  match e with
  | .throws => (none, st1, false)
  | .result row s1 s2 =>
    let sr := evalSearchResult row guardado
    if sr.hayDatos then
      let st2 := { st1 with totalConCosto := st1.totalConCosto + 1 }
      if sr.costosCoinciden then
        let st3 := { st2 with totalAceptados := st2.totalAceptados + 1 }
        let acc := aceptarExpediente sr s1 s2
        (some (mkOutcome acc.2 st3), st3, true)
      else (some (mkOutcome sr st2), st2, false)
    else (some (mkOutcome sr st1), st1, false)

/-- The retry recursion of `searchExpediente`: on an exception, if
`retryCount < this.maxRetries` wait and re-invoke with `retryCount + 1`,
otherwise return the `'Error en consulta'` object.  The recursion is driven
by a fuel argument; called with `fuel ≥ maxR + 1 - rc` the fuel never runs
out (the source terminates for the same reason: `retryCount` grows strictly
towards `maxRetries`), so the fuel-0 branch is unreachable from the public
entry point below. -/
def searchLoop (env : Nat → AttemptEnv) (guardado : ℚ) (maxR : Nat) :
    Nat → Nat → Stats → SearchOutcome × Stats
  | 0, _, st => (errorOutcome st, st)
  | fuel + 1, rc, st =>
    match searchAttempt (env rc) guardado st with
    | (some out, st2, _) => (out, st2)
    | (none, st2, _) =>
      if rc < maxR then searchLoop env guardado maxR fuel (rc + 1) st2
      else (errorOutcome st2, st2)

/-- `searchExpediente(expediente, costoGuardado)` as invoked by callers
(`retryCount = 0`), returning the outcome object and the final value of
`this.stats`.  The expediente id only flows into the typed search text and
the logs, neither of which affects the modelled state, so it is omitted. -/
def searchExpediente (env : Nat → AttemptEnv) (guardado : ℚ) (st : Stats) :
    SearchOutcome × Stats :=
  searchLoop env guardado maxRetries (maxRetries + 1) 0 st

/-- A no-data extraction in the sense of the spec: the row is missing, or its
cost cell is missing, empty after trim, or textually zero. -/
def rowNoData : Option Row → Bool
  | none => true
  | some r => !(tieneContenido r)

/-- The invariant of §3 of the spec over the three counters. -/
def StatsInv (st : Stats) : Prop :=
  st.totalAceptados ≤ st.totalConCosto ∧ st.totalConCosto ≤ st.totalRevisados

instance : DecidablePred StatsInv := fun st => by unfold StatsInv; infer_instance

/-- A public stats-mutating operation of `BrowserService`: one
`searchExpediente` call (with an arbitrary per-attempt environment and
expected cost) or one `resetStats` call. -/
inductive Op where
  | search (env : Nat → AttemptEnv) (guardado : ℚ)
  | reset

/-- Effect of one operation on `this.stats`. -/
def applyOp (st : Stats) : Op → Stats
  | .search env g => (searchExpediente env g st).2
  | .reset => resetStats

/-- Effect of a sequence of operations on `this.stats`. -/
def runOps : Stats → List Op → Stats
  | st, [] => st
  | st, op :: ops => runOps (applyOp st op) ops

/-- Credentials as stored by the config service. -/
structure Credentials where
  username : String
  password : String

/-- The errors `login()` can raise: the explicit missing-credentials throw,
the page-level failures (navigation / selector timeouts) that propagate
through the re-throwing `catch`, and the explicit `'Login fallido'` throw. -/
inductive LoginError where
  | missingCredentials
  | navigationError
  | selectorTimeout
  | loginFailed
deriving DecidableEq, Repr

/-- Behaviour of the page during `login()`: whether each awaited page
operation succeeds, and whether the password field is gone after submission
(the `isLoggedIn` evaluation). -/
structure LoginEnv where
  gotoOk : Bool
  userFieldOk : Bool
  passFieldOk : Bool
  navOk : Bool
  passwordGone : Bool

/-- `login()`: throws `'No se encontraron credenciales configuradas'` only
when `configService.getCredentials()` is null-ish (`!credentials`); a
non-null credentials object — even with empty username/password strings —
passes the guard and the portal login is attempted.  Every later failure is
a throw (the `catch` logs and re-throws); the only `return` statement is
`return true`. -/
def login (creds : Option Credentials) (env : LoginEnv) : Except LoginError Bool :=
  match creds with
  | none => Except.error LoginError.missingCredentials
  | some _ =>
    if !env.gotoOk then Except.error LoginError.navigationError
    else if !env.userFieldOk then Except.error LoginError.selectorTimeout
    else if !env.passFieldOk then Except.error LoginError.selectorTimeout
    else if !env.navOk then Except.error LoginError.navigationError
    else if !env.passwordGone then Except.error LoginError.loginFailed
    else Except.ok true

/-- A page environment in which every awaited login step succeeds. -/
def loginAllOk : LoginEnv :=
  { gotoOk := true, userFieldOk := true, passFieldOk := true
    navOk := true, passwordGone := true }

/-- The session-owning fields of `BrowserService`: `this.browser` and
`this.page` (`none` = `null`; the object identities are irrelevant to the
claims, so presence is all that is modelled). -/
structure Session where
  browser : Option Unit
  page : Option Unit
deriving DecidableEq, Repr

/-- The constructor state: `this.browser = null; this.page = null`. -/
def initialSession : Session := ⟨none, none⟩

/-- `close()`: when `this.browser` is non-null, await `browser.close()` and
null both fields; when it is already null, do nothing (no throw). -/
def closeSession (s : Session) : Session :=
  match s.browser with
  | some _ => ⟨none, none⟩
  | none => s

/-- The operations that mutate the session fields: `initialize()` (which sets
`this.browser` on a successful launch and `this.page` on a successful
`newPage`, leaving the fields untouched at the point a step throws) and
`close()`. -/
inductive SessOp where
  | init (launchOk newPageOk : Bool)
  | close

def applySessOp (s : Session) : SessOp → Session
  | .init launchOk newPageOk =>
    if launchOk then
      if newPageOk then ⟨some (), some ()⟩
      else ⟨some (), s.page⟩
    else s
  | .close => closeSession s

def runSess : Session → List SessOp → Session
  | s, [] => s
  | s, op :: ops => runSess (applySessOp s op) ops

/-! ### Concrete fixtures -/

/-- A result row whose cost cell reads `"$1,000.00"`. -/
def row1000 : Row :=
  { cell2 := some "$1,000.00", cell3 := some "Liberado", cell4 := some ""
    cell5 := some "01/01/2024", cell6 := some "Servicio", cell7 := some "Sub" }

/-- A result row whose cost cell reads `"$1,234,567.89"` (two thousands
separators). -/
def rowMillones : Row :=
  { cell2 := some "$1,234,567.89", cell3 := some "", cell4 := some ""
    cell5 := some "", cell6 := some "", cell7 := some "" }

/-- First attempt throws, every retry completes on `row1000` with both
acceptance steps succeeding. -/
def envRetrySuccess : Nat → AttemptEnv :=
  fun n => if n = 0 then AttemptEnv.throws
           else AttemptEnv.result (some row1000) true true

/-- Every attempt completes with no result row at all. -/
def envNoRow : Nat → AttemptEnv :=
  fun _ => AttemptEnv.result none true true

/-- Every attempt completes on `row1000`, but the accept button is never
found (first acceptance step fails). -/
def envAcceptFail : Nat → AttemptEnv :=
  fun _ => AttemptEnv.result (some row1000) false true

/-- Reachability invariant of the session fields: whenever `this.browser` is
null, `this.page` is null as well (`initialize` only sets the page after
setting the browser; `close` nulls both together). -/
def ClosedImp (s : Session) : Prop := s.browser = none → s.page = none

/-! ### Basic lemmas about the search pipeline -/

theorem searchExpediente_def (env : Nat → AttemptEnv) (g : ℚ) (st : Stats) :
    searchExpediente env g st = searchLoop env g maxRetries (maxRetries + 1) 0 st := rfl

theorem searchLoop_succ (env : Nat → AttemptEnv) (g : ℚ) (maxR fuel rc : Nat) (st : Stats) :
    searchLoop env g maxR (fuel + 1) rc st =
      match searchAttempt (env rc) g st with
      | (some out, st2, _) => (out, st2)
      | (none, st2, _) =>
        if rc < maxR then searchLoop env g maxR fuel (rc + 1) st2
        else (errorOutcome st2, st2) := rfl

theorem searchAttempt_throws (g : ℚ) (st : Stats) :
    searchAttempt AttemptEnv.throws g st =
      (none, ⟨st.totalRevisados + 1, st.totalConCosto, st.totalAceptados⟩, false) := rfl

/-- A completed attempt always produces an outcome object, and has bumped
`totalRevisados` by exactly 1. -/
theorem searchAttempt_result_some (row : Option Row) (s1 s2 : Bool) (g : ℚ) (st : Stats) :
    ∃ out st2 fl, searchAttempt (AttemptEnv.result row s1 s2) g st = (some out, st2, fl) ∧
      st2.totalRevisados = st.totalRevisados + 1 := by
  simp only [searchAttempt]
  by_cases hd : (evalSearchResult row g).hayDatos <;>
    by_cases hc : (evalSearchResult row g).costosCoinciden <;>
      simp [hd, hc] <;> exact ⟨_, _, ⟨rfl, rfl⟩, rfl⟩

/-- Stepping the loop over a throwing attempt below the retry budget. -/
theorem searchLoop_throws_step (env : Nat → AttemptEnv) (g : ℚ) (maxR fuel rc : Nat)
    (st : Stats) (hf : 0 < fuel) (h : env rc = AttemptEnv.throws) (hlt : rc < maxR) :
    searchLoop env g maxR fuel rc st =
      searchLoop env g maxR (fuel - 1) (rc + 1)
        ⟨st.totalRevisados + 1, st.totalConCosto, st.totalAceptados⟩ := by
  obtain ⟨f, rfl⟩ : ∃ f, fuel = f + 1 := ⟨fuel - 1, by omega⟩
  rw [searchLoop_succ, h, searchAttempt_throws]
  simp [hlt]

/-- Stepping the loop over a completing attempt: the loop returns that
attempt's outcome and stats. -/
theorem searchLoop_result_eq (env : Nat → AttemptEnv) (g : ℚ) (maxR fuel rc : Nat)
    (st : Stats) (row : Option Row) (s1 s2 : Bool) (out : SearchOutcome) (st2 : Stats)
    (fl : Bool) (hf : 0 < fuel) (h : env rc = AttemptEnv.result row s1 s2)
    (hA : searchAttempt (AttemptEnv.result row s1 s2) g st = (some out, st2, fl)) :
    searchLoop env g maxR fuel rc st = (out, st2) := by
  obtain ⟨f, rfl⟩ : ∃ f, fuel = f + 1 := ⟨fuel - 1, by omega⟩
  rw [searchLoop_succ, h, hA]

/-- A no-data row short-circuits the attempt: the extraction object has only
`hayDatos`/`costosCoinciden` (both false), the acceptance flow is not
invoked, and only `totalRevisados` moves. -/
theorem evalSearchResult_noData (row : Option Row) (g : ℚ) (h : rowNoData row = true) :
    evalSearchResult row g = { hayDatos := false, costosCoinciden := false } := by
  cases row with
  | none => rfl
  | some r =>
    simp only [rowNoData, Bool.not_eq_true'] at h
    simp [evalSearchResult, h]

theorem searchAttempt_noData (row : Option Row) (s1 s2 : Bool) (g : ℚ) (st : Stats)
    (h : rowNoData row = true) :
    searchAttempt (AttemptEnv.result row s1 s2) g st =
      (some (mkOutcome { hayDatos := false, costosCoinciden := false }
          ⟨st.totalRevisados + 1, st.totalConCosto, st.totalAceptados⟩),
        ⟨st.totalRevisados + 1, st.totalConCosto, st.totalAceptados⟩, false) := by
  simp [searchAttempt, evalSearchResult_noData row g h]

/-- A cost match implies the row had data. -/
theorem coinciden_imp_hayDatos (row : Option Row) (g : ℚ)
    (h : (evalSearchResult row g).costosCoinciden = true) :
    (evalSearchResult row g).hayDatos = true := by
  cases row with
  | none => simp [evalSearchResult] at h
  | some r =>
    by_cases hc : tieneContenido r
    · simp [evalSearchResult, hc]
    · simp [evalSearchResult, hc] at h

/-- A cost match is classified `'Aceptado'` by the extraction callback. -/
theorem coinciden_validacion (row : Option Row) (g : ℚ)
    (h : (evalSearchResult row g).costosCoinciden = true) :
    (evalSearchResult row g).validacion = some "Aceptado" := by
  cases row with
  | none => simp [evalSearchResult] at h
  | some r =>
    by_cases hc : tieneContenido r
    · simp only [evalSearchResult, hc, if_true] at h ⊢
      rcases hp : jsParseFloat (normalizeCost (r.cell2.getD "0")) with _ | v <;>
        simp [hp] at h ⊢ <;> simp [h]
    · simp [evalSearchResult, hc] at h

/-- On a matching row the attempt increments all three counters and invokes
`aceptarExpediente` on the extraction object. -/
theorem searchAttempt_match (row : Option Row) (s1 s2 : Bool) (g : ℚ) (st : Stats)
    (h : (evalSearchResult row g).costosCoinciden = true) :
    searchAttempt (AttemptEnv.result row s1 s2) g st =
      (some (mkOutcome (aceptarExpediente (evalSearchResult row g) s1 s2).2
          ⟨st.totalRevisados + 1, st.totalConCosto + 1, st.totalAceptados + 1⟩),
        ⟨st.totalRevisados + 1, st.totalConCosto + 1, st.totalAceptados + 1⟩, true) := by
  have hd := coinciden_imp_hayDatos row g h
  simp [searchAttempt, hd, h]

/-- A failure at either acceptance step rewrites `validacion` to
`'Error en aceptación'`. -/
theorem aceptarExpediente_fail (d : SearchResult) (s1 s2 : Bool) (h : (s1 && s2) = false) :
    (aceptarExpediente d s1 s2).2.validacion = some "Error en aceptación" := by
  cases s1 <;> cases s2 <;> simp_all [aceptarExpediente]

/-! ### The counter invariant -/

theorem searchAttempt_inv (e : AttemptEnv) (g : ℚ) (st : Stats) (h : StatsInv st) :
    StatsInv (searchAttempt e g st).2.1 := by
  obtain ⟨h1, h2⟩ := h
  cases e with
  | throws => exact ⟨by simpa [searchAttempt] using h1, by simp [searchAttempt]; omega⟩
  | result row s1 s2 =>
    by_cases hd : (evalSearchResult row g).hayDatos <;>
      by_cases hc : (evalSearchResult row g).costosCoinciden <;>
        simp [searchAttempt, hd, hc, StatsInv] <;> omega

theorem searchLoop_inv (env : Nat → AttemptEnv) (g : ℚ) (maxR : Nat) :
    ∀ fuel rc st, StatsInv st → StatsInv (searchLoop env g maxR fuel rc st).2 := by
  intro fuel
  induction fuel with
  | zero => intro rc st h; simpa [searchLoop] using h
  | succ n ih =>
    intro rc st h
    have hA := searchAttempt_inv (env rc) g st h
    rw [searchLoop_succ]
    rcases hEq : searchAttempt (env rc) g st with ⟨o, st2, fl⟩
    rw [hEq] at hA
    cases o with
    | some out => simpa using hA
    | none =>
      by_cases hrc : rc < maxR
      · simpa [hrc] using ih (rc + 1) st2 (by simpa using hA)
      · simpa [hrc] using hA

theorem applyOp_inv (st : Stats) (op : Op) (h : StatsInv st) : StatsInv (applyOp st op) := by
  cases op with
  | search env g => exact searchLoop_inv env g maxRetries (maxRetries + 1) 0 st h
  | reset => exact ⟨Nat.le_refl 0, Nat.le_refl 0⟩

theorem runOps_inv : ∀ (ops : List Op) (st : Stats), StatsInv st → StatsInv (runOps st ops)
  | [], _, h => h
  | op :: ops, st, h => runOps_inv ops (applyOp st op) (applyOp_inv st op h)

/-- C4: starting from the constructor state, after any sequence of
`searchExpediente` calls (with any per-attempt outcomes) and `resetStats`
calls, `totalAceptados ≤ totalConCosto ≤ totalRevisados` holds; since every
prefix of a sequence is itself a sequence, the invariant holds at every
operation boundary, and `searchAttempt_inv` gives it between the attempts
inside one call as well. -/
theorem c4_stats_invariant (ops : List Op) : StatsInv (runOps resetStats ops) :=
  runOps_inv ops resetStats ⟨Nat.le_refl 0, Nat.le_refl 0⟩

/-! ### C1 -/

/-- C1 (counterexample): a `searchExpediente` call whose first attempt throws
and whose second attempt succeeds (returning `'Aceptado'`) increments
`totalRevisados` by 2, not by 1 — `this.stats.totalRevisados++` runs at the
top of every invocation, including the recursive retry invocations, with no
guard on `retryCount`. -/
theorem c1_counterexample :
    (searchExpediente envRetrySuccess 1000 resetStats).2.totalRevisados = 2 ∧
    (searchExpediente envRetrySuccess 1000 resetStats).1.validacion = some "Aceptado" ∧
    ¬(searchExpediente envRetrySuccess 1000 resetStats).2.totalRevisados = 1 := by
  refine ⟨by decide, by decide, by decide⟩

/-- C1 (amended): `totalRevisados` increases by exactly 1 per *attempt*, so a
call whose first attempt fails and whose second attempt completes increments
it by exactly 2. -/
theorem c1_amended_increment_per_attempt (env : Nat → AttemptEnv) (row : Option Row)
    (s1 s2 : Bool) (g : ℚ) (st : Stats)
    (h0 : env 0 = AttemptEnv.throws) (h1 : env 1 = AttemptEnv.result row s1 s2) :
    (searchExpediente env g st).2.totalRevisados = st.totalRevisados + 2 := by
  obtain ⟨out, st2, fl, hA, hrev⟩ := searchAttempt_result_some row s1 s2 g
    ⟨st.totalRevisados + 1, st.totalConCosto, st.totalAceptados⟩
  rw [searchExpediente_def,
    searchLoop_throws_step env g maxRetries (maxRetries + 1) 0 st (by omega) h0
      (by norm_num [maxRetries]),
    searchLoop_result_eq env g maxRetries (maxRetries + 1 - 1) 1 _ row s1 s2 out st2 fl
      (by norm_num [maxRetries]) h1 hA]
  exact hrev

/-- C1 (witness for the amended theorem). -/
theorem c1_amended_witness :
    (searchExpediente envRetrySuccess 1000 resetStats).2.totalRevisados = 0 + 2 :=
  c1_amended_increment_per_attempt envRetrySuccess (some row1000) true true 1000 resetStats
    rfl rfl

/-! ### C2 -/

/-- If the extraction callback reports a cost match, the normalized cost cell
parsed to exactly the expected number. -/
theorem coinciden_parse (r : Row) (g : ℚ)
    (h : (evalSearchResult (some r) g).costosCoinciden = true) :
    jsParseFloat (normalizeCost (r.cell2.getD "0")) = some g := by
  by_cases hc : tieneContenido r
  · simp only [evalSearchResult, hc, if_true] at h
    rcases hp : jsParseFloat (normalizeCost (r.cell2.getD "0")) with _ | v
    · rw [hp] at h; simp at h
    · rw [hp] at h
      simp only [decide_eq_true_eq] at h
      rw [h]
  · simp [evalSearchResult, hc] at h

/-- C2: cost reconciliation is exact equality with no tolerance — for the
extracted cost `"$1,000.00"`, expected cost 1000 matches, expected cost
999.99 does not, and *only* the exact value 1000 can match. -/
theorem c2_exact_match :
    (evalSearchResult (some row1000) 1000).costosCoinciden = true ∧
    (evalSearchResult (some row1000) (999.99 : ℚ)).costosCoinciden = false ∧
    ∀ g : ℚ, (evalSearchResult (some row1000) g).costosCoinciden = true → g = 1000 := by
  refine ⟨by decide, ?_, ?_⟩
  · have h99 : (999.99 : ℚ) = mkRat 99999 100 := by norm_num [mkRat]
    rw [h99]; decide
  · intro g hg
    have hp := coinciden_parse row1000 g hg
    have h1000 : jsParseFloat (normalizeCost ((row1000.cell2).getD "0")) = some (1000 : ℚ) := by
      decide
    rw [hp] at h1000
    exact (Option.some.injEq g 1000 ▸ h1000)

/-- C2 (witness): the universally quantified exactness clause applied at the
matching input. -/
theorem c2_witness :
    (evalSearchResult (some row1000) 1000).costosCoinciden = true ∧ (1000 : ℚ) = 1000 :=
  ⟨c2_exact_match.1, c2_exact_match.2.2 1000 c2_exact_match.1⟩

/-! ### C3 -/

/-- C3 (counterexample): normalization does NOT strip every thousands
separator — `String.replace(',', '')` removes only the first comma, so
`"$1,234,567.89"` normalizes to `"1234,567.89"`, `parseFloat` stops at the
surviving comma and yields 1234, which is not the denoted value 1234567.89;
consequently the row matches expected cost 1234 and fails to match its own
denoted value. -/
theorem c3_counterexample :
    normalizeCost "$1,234,567.89" = "1234,567.89" ∧
    jsParseFloat (normalizeCost "$1,234,567.89") = some 1234 ∧
    (mkRat 123456789 100 : ℚ) = 1234567.89 ∧
    (evalSearchResult (some rowMillones) (mkRat 123456789 100)).costosCoinciden = false ∧
    (evalSearchResult (some rowMillones) 1234).costosCoinciden = true := by
  refine ⟨by decide, by decide, by norm_num [mkRat], by decide, by decide⟩

/-- C3 (amended): normalization strips the currency symbol and only the FIRST
comma, so the parsed numeric value equals the denoted value exactly when the
string carries at most one thousands separator (amounts under $1,000,000):
`"$1,000.00"` → 1000 and `"$1,234.56"` → 1234.56, but `"$1,234,567.89"` →
1234. -/
theorem c3_amended_first_separator_only :
    jsParseFloat (normalizeCost "$1,000.00") = some 1000 ∧
    jsParseFloat (normalizeCost "$1,234.56") = some (mkRat 123456 100) ∧
    (mkRat 123456 100 : ℚ) = 1234.56 ∧
    jsParseFloat (normalizeCost "$1,234,567.89") = some 1234 := by
  refine ⟨by decide, by decide, by norm_num [mkRat], by decide⟩

/-! ### C5 -/

/-- C5 (counterexample): for a call whose extracted first row is missing, the
returned outcome's `validacion` field is absent (`none`) — the code never
produces any `'NoData'` classification; the no-data object carries only
`hayDatos`/`costosCoinciden` and the spread leaves `validacion` undefined.
(`totalConCosto` is indeed not incremented.) -/
theorem c5_counterexample :
    (searchExpediente envNoRow 1000 resetStats).1.validacion = none ∧
    (searchExpediente envNoRow 1000 resetStats).2.totalConCosto = 0 := by
  refine ⟨by decide, by decide⟩

/-- C5 (amended): for every call whose attempt completes on a no-data row
(missing row, or cost cell missing/empty/`"$0.00"`/`"$0"`), the returned
outcome has NO validation classification (`validacion = none`),
`aceptarExpediente` is not invoked, and neither `totalConCosto` nor
`totalAceptados` moves. -/
theorem c5_amended_no_data (env : Nat → AttemptEnv) (row : Option Row) (s1 s2 : Bool)
    (g : ℚ) (st : Stats)
    (hnd : rowNoData row = true) (henv : env 0 = AttemptEnv.result row s1 s2) :
    (searchExpediente env g st).1.validacion = none ∧
    (searchExpediente env g st).2.totalConCosto = st.totalConCosto ∧
    (searchExpediente env g st).2.totalAceptados = st.totalAceptados ∧
    (searchAttempt (AttemptEnv.result row s1 s2) g st).2.2 = false := by
  have hA := searchAttempt_noData row s1 s2 g st hnd
  rw [searchExpediente_def,
    searchLoop_result_eq env g maxRetries (maxRetries + 1) 0 st row s1 s2 _ _ _
      (by omega) henv hA]
  exact ⟨rfl, rfl, rfl, by rw [hA]⟩

/-- C5 (witness for the amended theorem). -/
theorem c5_amended_witness :
    (searchExpediente envNoRow 1000 resetStats).1.validacion = none ∧
    (searchExpediente envNoRow 1000 resetStats).2.totalConCosto = 0 ∧
    (searchExpediente envNoRow 1000 resetStats).2.totalAceptados = 0 ∧
    (searchAttempt (AttemptEnv.result none true true) 1000 resetStats).2.2 = false :=
  c5_amended_no_data envNoRow none true true 1000 resetStats rfl rfl

/-! ### C6 -/

/-- C6: when the costs match but the acceptance sub-flow fails at either step
(button not found, or confirmation not found), the extraction had already
classified the record `'Aceptado'`, the returned outcome's `validacion` is
overwritten to `'Error en aceptación'`, and `totalAceptados` keeps the
increment applied at reconciliation time (both in the final stats and in the
outcome's embedded snapshot). -/
theorem c6_accept_failure_overwrites (env : Nat → AttemptEnv) (row : Option Row)
    (s1 s2 : Bool) (g : ℚ) (st : Stats)
    (henv : env 0 = AttemptEnv.result row s1 s2)
    (hmatch : (evalSearchResult row g).costosCoinciden = true)
    (hfail : (s1 && s2) = false) :
    (evalSearchResult row g).validacion = some "Aceptado" ∧
    (searchExpediente env g st).1.validacion = some "Error en aceptación" ∧
    (searchExpediente env g st).2.totalAceptados = st.totalAceptados + 1 ∧
    (searchExpediente env g st).1.stats.totalAceptados = st.totalAceptados + 1 := by
  have hA := searchAttempt_match row s1 s2 g st hmatch
  rw [searchExpediente_def,
    searchLoop_result_eq env g maxRetries (maxRetries + 1) 0 st row s1 s2 _ _ _
      (by omega) henv hA]
  exact ⟨coinciden_validacion row g hmatch,
    aceptarExpediente_fail (evalSearchResult row g) s1 s2 hfail, rfl, rfl⟩

/-- C6 (witness): `row1000` at expected cost 1000 with the accept button
never found. -/
theorem c6_witness :
    (evalSearchResult (some row1000) 1000).costosCoinciden = true ∧
    ((false && true) = false) ∧
    (searchExpediente envAcceptFail 1000 resetStats).1.validacion =
      some "Error en aceptación" ∧
    (searchExpediente envAcceptFail 1000 resetStats).2.totalAceptados = 1 := by
  have h := c6_accept_failure_overwrites envAcceptFail (some row1000) false true 1000
    resetStats rfl (by decide) rfl
  exact ⟨by decide, rfl, h.2.1, h.2.2.1⟩

/-! ### C7 -/

/-- Exhausting the retry budget: when every attempt from `rc` on throws and
the fuel equals the remaining budget, the loop returns the
`'Error en consulta'` object, having bumped `totalRevisados` once per
attempt. -/
theorem searchLoop_all_throws (env : Nat → AttemptEnv) (g : ℚ) (maxR : Nat) :
    ∀ fuel rc st, (∀ i, i ≤ maxR → env i = AttemptEnv.throws) → fuel + rc = maxR + 1 →
      searchLoop env g maxR fuel rc st =
        (errorOutcome ⟨st.totalRevisados + fuel, st.totalConCosto, st.totalAceptados⟩,
         ⟨st.totalRevisados + fuel, st.totalConCosto, st.totalAceptados⟩) := by
  intro fuel
  induction fuel with
  | zero => intro rc st h hf; rfl
  | succ n ih =>
    intro rc st h hf
    have hrc : rc ≤ maxR := by omega
    by_cases hlt : rc < maxR
    · rw [searchLoop_throws_step env g maxR (n + 1) rc st (by omega) (h rc hrc) hlt]
      simp only [Nat.add_sub_cancel]
      rw [ih (rc + 1) _ h (by omega)]
      have harith : st.totalRevisados + 1 + n = st.totalRevisados + (n + 1) := by omega
      simp only [harith]
    · obtain rfl : n = 0 := by omega
      rw [searchLoop_succ, h rc hrc, searchAttempt_throws]
      simp [hlt]

/-- C7: a call in which every attempt up to the retry budget throws does not
propagate the exception: it returns the outcome whose `validacion` is
`'Error en consulta'` and whose cost/status/notes/date/service/subservice
fields are all the empty string (see `errorOutcome`), carrying the current
stats — `totalRevisados` bumped once per attempt (`maxRetries + 1` attempts),
the other counters untouched. -/
theorem c7_exhausted_retries_error_outcome (env : Nat → AttemptEnv) (g : ℚ) (st : Stats)
    (h : ∀ i, i ≤ maxRetries → env i = AttemptEnv.throws) :
    searchExpediente env g st =
      (errorOutcome ⟨st.totalRevisados + (maxRetries + 1), st.totalConCosto,
          st.totalAceptados⟩,
       ⟨st.totalRevisados + (maxRetries + 1), st.totalConCosto, st.totalAceptados⟩) := by
  rw [searchExpediente_def]
  exact searchLoop_all_throws env g maxRetries (maxRetries + 1) 0 st h (by omega)

/-- C7 (witness): with every attempt throwing, the call returns the error
outcome with stats `{4, 0, 0}` (4 attempts) and raises nothing. -/
theorem c7_witness :
    searchExpediente (fun _ => AttemptEnv.throws) 1000 resetStats =
      (errorOutcome ⟨4, 0, 0⟩, ⟨4, 0, 0⟩) := by
  have h := c7_exhausted_retries_error_outcome (fun _ => AttemptEnv.throws) 1000 resetStats
    (fun _ _ => rfl)
  simpa using h

/-! ### C8 -/

/-- C8 (counterexample): a credentials object with EMPTY username and
password passes the `if (!credentials)` guard — no missing-credentials error
is raised and the portal login is attempted (here, with a fully cooperative
page, it completes and returns true).  The guard checks only nullness, not
field emptiness. -/
theorem c8_counterexample :
    login (some ⟨"", ""⟩) loginAllOk = Except.ok true := rfl

/-- C8 (amended): `login` raises the missing-credentials error exactly when
the stored credentials are null; any non-null credentials object — empty
strings included — passes the guard, and no later failure mode reports
missing credentials. -/
theorem c8_amended_null_check_only :
    (∀ env, login none env = Except.error LoginError.missingCredentials) ∧
    (∀ c env, login (some c) env ≠ Except.error LoginError.missingCredentials) := by
  refine ⟨fun _ => rfl, fun c env h => ?_⟩
  simp only [login] at h
  split_ifs at h <;> simp at h

/-- C8 (witness for the amended theorem). -/
theorem c8_amended_witness :
    login none loginAllOk = Except.error LoginError.missingCredentials ∧
    ¬login (some ⟨"user", "pass"⟩) loginAllOk = Except.error LoginError.missingCredentials :=
  ⟨c8_amended_null_check_only.1 loginAllOk,
   c8_amended_null_check_only.2 ⟨"user", "pass"⟩ loginAllOk⟩

/-! ### C9 -/


theorem applySessOp_closedImp (s : Session) (op : SessOp) (h : ClosedImp s) :
    ClosedImp (applySessOp s op) := by
  cases op with
  | init launchOk newPageOk =>
    cases launchOk with
    | false => simpa [applySessOp] using h
    | true => cases newPageOk <;> simp [applySessOp, ClosedImp]
  | close =>
    rcases s with ⟨b, p⟩
    cases b with
    | some u => simp [applySessOp, closeSession, ClosedImp]
    | none => simpa [applySessOp, closeSession, ClosedImp] using h

theorem runSess_closedImp :
    ∀ (ops : List SessOp) (s : Session), ClosedImp s → ClosedImp (runSess s ops)
  | [], _, h => h
  | op :: ops, s, h => runSess_closedImp ops _ (applySessOp_closedImp s op h)

theorem closeSession_of_closedImp (s : Session) (h : ClosedImp s) :
    closeSession s = initialSession := by
  rcases s with ⟨b, p⟩
  cases b with
  | some u => rfl
  | none =>
    have hp : p = none := h rfl
    rw [hp]
    rfl

/-- C9: from any state reachable through `initialize`/`close` calls (with
any launch/newPage outcomes), one `close` already yields the fully closed
state (`browser` and `page` null), a second consecutive `close` is a no-op
that leaves it closed, and `close` on an already-closed session is a no-op
(the body is skipped entirely, so nothing can raise). -/
theorem c9_close_idempotent (ops : List SessOp) :
    closeSession (runSess initialSession ops) = initialSession ∧
    closeSession (closeSession (runSess initialSession ops)) = initialSession ∧
    closeSession initialSession = initialSession := by
  have h1 := closeSession_of_closedImp (runSess initialSession ops)
    (runSess_closedImp ops initialSession (fun _ => rfl))
  exact ⟨h1, by rw [h1]; rfl, rfl⟩

/-! ### C10 -/

/-- C10: `login` never returns false — every terminating, non-throwing
execution returns true; all failure modes (missing credentials, navigation
timeout, selector timeout, persisting password field) raise instead of
returning. -/
theorem c10_login_never_false (creds : Option Credentials) (env : LoginEnv) (b : Bool)
    (h : login creds env = Except.ok b) : b = true := by
  cases creds with
  | none => simp [login] at h
  | some c =>
    simp only [login] at h
    split_ifs at h <;> simp_all

/-- C10 (witness): a successful login run, with the theorem applied to it. -/
theorem c10_witness :
    login (some ⟨"user", "pass"⟩) loginAllOk = Except.ok true ∧ true = true :=
  ⟨rfl, c10_login_never_false (some ⟨"user", "pass"⟩) loginAllOk true rfl⟩
